import Mathlib

/-!
Verification of the Binance futures filter dashboard
(`binance_future_filter.py`) against its specification.

The development shallowly embeds the data-fetch / filter / cache logic of
the script: network responses are oracles passed as function arguments,
the Streamlit session state is explicit state passing, pandas data frames
over the fixed column sets of the script become Lean structures, and the
wire decimal strings are parsed into `Option Rat` (with `none` as the NaN
"missing" marker produced by `pd.to_numeric(errors := coerce)`).
-/

namespace BinanceFilter

/-! ### Wire data model -/

/-- One entry of `exchangeInfo.symbols` (the fields the script reads). -/
structure SymbolInfo where
  symbol : String
  quoteAsset : String
  contractType : String
  status : String
deriving DecidableEq, Repr

/-- One entry of the `/fapi/v1/ticker/24hr` batch response, with the three
numeric fields already read off the wire as exact decimals (the script
applies Python `float` to each; the wire carries plain signed decimal
literals, which `Rat` represents exactly). -/
structure Ticker where
  symbol : String
  priceChangePercent : Rat
  lastPrice : Rat
  quoteVolume : Rat
deriving DecidableEq, Repr

/-- One row of the filtered result data frame built at lines 145-151 of the
script: columns `symbol`, `% 24h`, `last_price`, `volume (USDT)`,
`listed_date`. -/
structure Row where
  symbol : String
  pct24h : Rat
  last_price : Rat
  volumeUSDT : Rat
  listed_date : String
deriving DecidableEq, Repr

/-! ### Numeric coercion (`pd.to_numeric(df[c], errors="coerce")`)

`parseDecimal` models pandas' numeric coercion on the decimal-literal wire
format of the klines endpoint: an optional sign, integer digits, and an
optional fractional part.  A string outside that grammar coerces to
`none`, the embedding of the NaN missing marker; it is never mapped to a
number.  `isNumericLit` is an independent recogniser for the same literal
grammar, used to state claims about malformed fields. -/

/-- Numeric value of a digit character. -/
def natOfDigitChar (c : Char) : Nat := c.toNat - 48

/-- Parse a fractional-digit block, returning its value and digit count. -/
def parseFracV : List Char → Option (Nat × Nat)
  | [] => some (0, 0)
  | c :: cs =>
    if c.isDigit then
      match parseFracV cs with
      | some (v, k) => some (natOfDigitChar c * 10 ^ k + v, k + 1)
      | none => none
    else none

/-- Recognise a (possibly empty) fractional-digit block. -/
def scanFracB : List Char → Bool
  | [] => true
  | c :: cs => c.isDigit && scanFracB cs

/-- Parse an unsigned decimal literal; `acc` is the integer value read so
far and `seen` records whether any digit has been read. -/
def parseNum : List Char → Nat → Bool → Option Rat
  | [], acc, seen => if seen then some (acc : Rat) else none
  | c :: cs, acc, seen =>
    if c = '.' then
      if seen || !cs.isEmpty then
        match parseFracV cs with
        | some (v, k) => some ((acc : Rat) + (v : Rat) / (10 : Rat) ^ k)
        | none => none
      else none
    else if c.isDigit then parseNum cs (acc * 10 + natOfDigitChar c) true
    else none

/-- Recognise an unsigned decimal literal. -/
def scanNum : List Char → Bool → Bool
  | [], seen => seen
  | c :: cs, seen =>
    if c = '.' then (seen || !cs.isEmpty) && scanFracB cs
    else c.isDigit && scanNum cs true

/-- Parse a signed decimal literal (list-of-characters form). -/
def parseSigned (cs : List Char) : Option Rat :=
  match cs with
  | [] => none
  | c :: rest =>
    if c = '-' then (parseNum rest 0 false).map (fun q => -q)
    else if c = '+' then parseNum rest 0 false
    else parseNum (c :: rest) 0 false

/-- Recognise a signed decimal literal (list-of-characters form). -/
def scanSigned (cs : List Char) : Bool :=
  match cs with
  | [] => false
  | c :: rest =>
    if c = '-' then scanNum rest false
    else if c = '+' then scanNum rest false
    else scanNum (c :: rest) false

/-- Numeric coercion of one wire string: a valid decimal literal becomes
its exact value, anything else becomes `none` (the NaN marker). -/
def parseDecimal (s : String) : Option Rat := parseSigned s.data

/-- Whether a wire string is a valid decimal literal. -/
def isNumericLit (s : String) : Bool := scanSigned s.data

/-! ### Kline rows (`get_klines_cached`, lines 49-73)

A raw kline is one 12-element array of the `/fapi/v1/klines` response.
The script builds a data frame with the 12 named columns, coerces the
five columns `open`, `high`, `low`, `volume`, `close` with
`pd.to_numeric(errors="coerce")`, and converts the two millisecond
timestamps with `pd.to_datetime(unit="ms")` (kept here as the exact
millisecond count).  The remaining six columns pass through untouched.
`open` and `close` are Lean keywords, hence the field names `openP` and
`closeP`. -/

structure RawKline where
  openTime : Nat
  openP : String
  high : String
  low : String
  closeP : String
  volume : String
  closeTime : Nat
  quoteAssetVolume : String
  nbrTrades : String
  takerBuyBase : String
  takerBuyQuote : String
  ignoreField : String
deriving DecidableEq, Repr

/-- A parsed kline row of the cached data frame. -/
structure Candle where
  openTime : Nat
  openP : Option Rat
  high : Option Rat
  low : Option Rat
  closeP : Option Rat
  volume : Option Rat
  closeTime : Nat
  quoteAssetVolume : String
  nbrTrades : String
  takerBuyBase : String
  takerBuyQuote : String
  ignoreField : String
deriving DecidableEq, Repr

/-- Per-row effect of the data-frame construction of lines 59-70. -/
def parseKlineRow (r : RawKline) : Candle :=
  { openTime := r.openTime
    openP := parseDecimal r.openP
    high := parseDecimal r.high
    low := parseDecimal r.low
    closeP := parseDecimal r.closeP
    volume := parseDecimal r.volume
    closeTime := r.closeTime
    quoteAssetVolume := r.quoteAssetVolume
    nbrTrades := r.nbrTrades
    takerBuyBase := r.takerBuyBase
    takerBuyQuote := r.takerBuyQuote
    ignoreField := r.ignoreField }

/-- The whole parsed klines data frame. -/
def parseKlines (arr : List RawKline) : List Candle := arr.map parseKlineRow

/-! ### Candle cache (`get_klines_cached`, lines 49-73)

The session candle cache is an association list from string keys to
parsed data frames; `st.session_state` dictionary lookup and insertion
become `cacheLookup` and list cons (a key is inserted only when absent,
so the first match is the binding). -/

/-- Cache key built at line 50. -/
def klineKey (symbol interval : String) : String := symbol ++ "_" ++ interval

/-- The session candle cache. -/
abbrev CandleCache := List (String × List Candle)

/-- Dictionary lookup in the candle cache. -/
def cacheLookup : CandleCache → String → Option (List Candle)
  | [], _ => none
  | (k, v) :: rest, key => if k = key then some v else cacheLookup rest key

/-- Result of one `get_klines_cached` call: the returned data frame, the
candle cache afterwards, and whether a network request was issued. -/
structure KlinesResult where
  df : List Candle
  cache : CandleCache
  networkFetch : Bool
deriving DecidableEq, Repr

/-- The candle fetcher, lines 49-73.  `net symbol interval limit` is the
oracle for the body of a successful `/fapi/v1/klines` response. -/
def get_klines_cached (net : String → String → Nat → List RawKline)
    (cache : CandleCache) (symbol interval : String) (limit : Nat) : KlinesResult :=
  let key := klineKey symbol interval
  match cacheLookup cache key with
  | some df => ⟨df, cache, false⟩
  | none =>
    let df := parseKlines (net symbol interval limit)
    ⟨df, (key, df) :: cache, true⟩

/-- One requested chart fetch within a session. -/
structure KlinesCall where
  symbol : String
  interval : String
  limit : Nat
deriving DecidableEq, Repr

/-- Run a sequence of candle fetches, threading the cache. -/
def runCalls (net : String → String → Nat → List RawKline) :
    CandleCache → List KlinesCall → CandleCache
  | cache, [] => cache
  | cache, c :: cs =>
    runCalls net (get_klines_cached net cache c.symbol c.interval c.limit).cache cs

/-! ### Listing-date lookup (lines 134-143)

For each surviving symbol the script issues one uncached klines request
(`interval="1d"`, `limit=1`, `startTime=0`) and reads `r.json()[0][0]`,
the first candle's open time in milliseconds.  The oracle answer is
either a raised exception or a status code with a body; only the leading
numeric field of each body row is consumed, so a body row is modelled as
its list of numeric fields. -/

/-- Outcome of one listing-date HTTP request. -/
inductive HttpKlines where
  | exn : HttpKlines
  | resp (status : Nat) (body : List (List Nat)) : HttpKlines
deriving DecidableEq, Repr

/-- Zero-pad a number to two digits, as `strftime` does for `%d` and `%m`. -/
def pad2 (n : Nat) : String := if n < 10 then "0" ++ toString n else toString n

/-- Proleptic Gregorian civil date `(year, month, day)` of a day count
since 1970-01-01 (the effect of `datetime.utcfromtimestamp` on a
non-negative timestamp). -/
def civilFromDays (z0 : Nat) : Nat × Nat × Nat :=
  let z := z0 + 719468
  let era := z / 146097
  let doe := z % 146097
  let yoe := (doe - doe / 1460 + doe / 36524 - doe / 146096) / 365
  let doy := doe - (365 * yoe + yoe / 4 - yoe / 100)
  let mp := (5 * doy + 2) / 153
  let d := doy - (153 * mp + 2) / 5 + 1
  let m := if mp < 10 then mp + 3 else mp - 9
  let y := yoe + era * 400 + (if m ≤ 2 then 1 else 0)
  (y, m, d)

/-- `datetime.utcfromtimestamp(tsMs / 1000).strftime("%d/%m/%Y")`. -/
def fmtDMY (tsMs : Nat) : String :=
  let c := civilFromDays (tsMs / 1000 / 86400)
  pad2 c.2.2 ++ "/" ++ pad2 c.2.1 ++ "/" ++ toString c.1

/-- Listing date derived from one lookup outcome, lines 136-143: a 200
response with a non-empty body whose first row carries an open time is
formatted day/month/year; any exception, other status, or empty shape
yields the sentinel. -/
def listingDate (r : HttpKlines) : String :=
  match r with
  | .exn => "N/A"
  | .resp status body =>
    if status = 200 then
      match body with
      | (ts :: _) :: _ => fmtDMY ts
      | _ => "N/A"
    else "N/A"

/-! ### The refresh cycle (lines 104-154)

`need_reload` triggers: take the first `max_symbols` cached metadata
entries, fetch the 24h ticker batch, join by symbol through a dictionary
(`tick_map`, last binding wins), keep strictly negative percent changes,
attach listing dates, build a data frame, sort it by the `% 24h` column
and store it in session state.  The two bulk fetches are oracles that
either succeed or raise; an exception anywhere in the block leaves the
stored `filtered_df` untouched. -/

/-- Outcome of an uncaught bulk fetch (`r.raise_for_status()`). -/
inductive FetchOutcome (α : Type) where
  | netError : FetchOutcome α
  | success (a : α) : FetchOutcome α
deriving DecidableEq, Repr

/-- The ways a refresh cycle aborts. -/
inductive RefreshError where
  | metaNetwork : RefreshError
  | tickerNetwork : RefreshError
  | sortKeyError : RefreshError
deriving DecidableEq, Repr

/-- Dictionary built at line 116 and looked up at lines 125-128: the last
ticker with the symbol wins, as in a Python dict comprehension. -/
def tickMapLookup (tickers : List Ticker) (sym : String) : Option Ticker :=
  tickers.foldl (fun acc t => if t.symbol = sym then some t else acc) none

/-- Lines 110-111: first `maxSymbols` cached metadata entries, in
exchange-returned order, projected to their symbol names. -/
def candidateSymbols (symbolsCache : List SymbolInfo) (maxSymbols : Nat) : List String :=
  (symbolsCache.take maxSymbols).map (fun s => s.symbol)

/-- The row-building loop of lines 122-151: skip symbols without a ticker,
skip non-negative percent changes, attach the listing date. -/
def buildRows (symbolsCache : List SymbolInfo) (maxSymbols : Nat)
    (tickers : List Ticker) (listing : String → HttpKlines) : List Row :=
  (candidateSymbols symbolsCache maxSymbols).filterMap (fun sym =>
    match tickMapLookup tickers sym with
    | none => none
    | some t =>
      if 0 ≤ t.priceChangePercent then none
      else some
        { symbol := sym
          pct24h := t.priceChangePercent
          last_price := t.lastPrice
          volumeUSDT := t.quoteVolume
          listed_date := listingDate (listing sym) })

/-- Comparison used by `sort_values("% 24h")` (ascending). -/
def rowLe (a b : Row) : Prop := a.pct24h ≤ b.pct24h

instance : DecidableRel rowLe := fun a b => inferInstanceAs (Decidable (a.pct24h ≤ b.pct24h))

instance : IsTotal Row rowLe := ⟨fun a b => le_total a.pct24h b.pct24h⟩

instance : IsTrans Row rowLe := ⟨fun _ _ _ hab hbc => le_trans hab hbc⟩

/-- Sorting of line 153.  pandas' default quicksort leaves the relative
order of ties unspecified; any comparison sort realises the contract, and
insertion sort is used here. -/
def sortRows (l : List Row) : List Row := List.insertionSort rowLe l

/-- Columns of `pd.DataFrame(rows)`: a frame built from an empty list of
records has no columns at all. -/
def frameColumns (rows : List Row) : List String :=
  if rows.isEmpty then []
  else ["symbol", "% 24h", "last_price", "volume (USDT)", "listed_date"]

/-- Line 153, `sort_values("% 24h")`: sorting by a column the frame does
not have raises a `KeyError`. -/
def sortValuesPct (rows : List Row) : Except RefreshError (List Row) :=
  if "% 24h" ∈ frameColumns rows then .ok (sortRows rows) else .error .sortKeyError

/-- The whole refresh computation of lines 104-153, up to the value that
would be stored in `filtered_df`. -/
def runRefresh (metaFetch : FetchOutcome (List SymbolInfo))
    (tickerFetch : FetchOutcome (List Ticker)) (maxSymbols : Nat)
    (listing : String → HttpKlines) : Except RefreshError (List Row) :=
  match metaFetch with
  | .netError => .error .metaNetwork
  | .success symbolsCache =>
    match tickerFetch with
    | .netError => .error .tickerNetwork
    | .success tickers => sortValuesPct (buildRows symbolsCache maxSymbols tickers listing)

/-- The stored `filtered_df` after a refresh cycle: line 154 assigns only
when every prior step of the block succeeded, so any abort leaves the
previous value. -/
def sessionAfterRefresh (prev : Option (List Row))
    (metaFetch : FetchOutcome (List SymbolInfo))
    (tickerFetch : FetchOutcome (List Ticker)) (maxSymbols : Nat)
    (listing : String → HttpKlines) : Option (List Row) :=
  match runRefresh metaFetch tickerFetch maxSymbols listing with
  | .error _ => prev
  | .ok df => some df

/-! ### Metadata fetcher with time-to-live cache (lines 31-41)

`fetch_exchange_symbols` is wrapped in `st.cache_data(ttl=300)`: a memo
slot holding the fetch time and value, valid for 300 seconds.  The body
filters the raw `exchangeInfo` symbol list.  `net now` is the oracle for
the raw symbol list the exchange would return at time `now`. -/

/-- The filter in the body of `fetch_exchange_symbols`, lines 36-41. -/
def filterSymbols (raw : List SymbolInfo) : List SymbolInfo :=
  raw.filter (fun s =>
    s.quoteAsset = "USDT" ∧ s.contractType = "PERPETUAL" ∧ s.status = "TRADING")

/-- Result of one `fetch_exchange_symbols` call: value, memo slot
afterwards, and whether a network request was issued. -/
structure SymbolsFetchResult where
  value : List SymbolInfo
  ttlState : Option (Nat × List SymbolInfo)
  networkFetch : Bool
deriving DecidableEq, Repr

/-- The TTL-cached metadata fetcher.  A memo entry stored at `t0` is
served without a network round-trip while `now < t0 + 300`; otherwise the
body runs again and the slot is replaced wholesale. -/
def fetch_exchange_symbols (net : Nat → List SymbolInfo) (now : Nat)
    (st : Option (Nat × List SymbolInfo)) : SymbolsFetchResult :=
  match st with
  | some (t0, v) =>
    if now < t0 + 300 then ⟨v, some (t0, v), false⟩
    else ⟨filterSymbols (net now), some (now, filterSymbols (net now)), true⟩
  | none => ⟨filterSymbols (net now), some (now, filterSymbols (net now)), true⟩

/-! ### Concrete inputs used to exercise the theorems

These mirror Scenario A/B/C/D of the specification: three perpetual USDT
symbols with 24h changes -5 %, +2 % and -1 %. -/

/-- Scenario A metadata: three trading perpetual USDT contracts. -/
def metaA : List SymbolInfo :=
  [⟨"AAAUSDT", "USDT", "PERPETUAL", "TRADING"⟩,
   ⟨"BBBUSDT", "USDT", "PERPETUAL", "TRADING"⟩,
   ⟨"CCCUSDT", "USDT", "PERPETUAL", "TRADING"⟩]

/-- Scenario A ticker snapshot: AAA -5 %, BBB +2 %, CCC -1 %. -/
def tickersA : List Ticker :=
  [⟨"AAAUSDT", -5, 1, 1000⟩, ⟨"BBBUSDT", 2, 2, 2000⟩, ⟨"CCCUSDT", -1, 3, 3000⟩]

/-- Ticker snapshot listing CCC before AAA so that sorting has to reorder. -/
def tickersB : List Ticker :=
  [⟨"AAAUSDT", -1, 1, 1000⟩, ⟨"BBBUSDT", 2, 2, 2000⟩, ⟨"CCCUSDT", -5, 3, 3000⟩]

/-- A listing-date oracle that always raises. -/
def listingExn : String → HttpKlines := fun _ => .exn

/-- A listing-date oracle failing for AAA and succeeding for CCC with the
epoch first candle (Scenario D shape). -/
def listingAC : String → HttpKlines := fun sym =>
  if sym = "CCCUSDT" then .resp 200 [[0]] else .exn

/-- Metadata with one symbol whose percent change is positive. -/
def metaD : List SymbolInfo := [⟨"DDDUSDT", "USDT", "PERPETUAL", "TRADING"⟩]

/-- Ticker snapshot for `metaD`: +2 %, so nothing survives the filter. -/
def tickersD : List Ticker := [⟨"DDDUSDT", 2, 1, 1⟩]

/-- A previously stored filtered result. -/
def prevRows : List Row := [⟨"OLDUSDT", -9, 1, 1, "N/A"⟩]

/-- A kline row whose open-price field is not numeric. -/
def rawBad : RawKline := ⟨0, "abc", "1", "1", "1", "1", 0, "0", "0", "0", "0", "0"⟩

/-- Network oracle for the metadata TTL counterexample. -/
def netMeta : Nat → List SymbolInfo := fun _ => [⟨"BTCUSDT", "USDT", "PERPETUAL", "TRADING"⟩]

/-- Klines network oracle that records the requested symbol and interval in
the two pass-through string columns, so responses for different argument
pairs differ. -/
def netKl : String → String → Nat → List RawKline :=
  fun s i _ => [⟨0, "1", "1", "1", "1", "1", 0, s, i, "0", "0", "0"⟩]

/-! ### Helper lemmas -/

theorem string_data_inj {s t : String} (h : s.data = t.data) : s = t := by
  cases s
  cases t
  exact congrArg String.mk h

theorem klineKey_data (s i : String) : (klineKey s i).data = s.data ++ '_' :: i.data := by
  cases s with
  | mk a =>
    cases i with
    | mk b =>
      show (a ++ ['_']) ++ b = a ++ '_' :: b
      simp

theorem append_underscore_inj :
    ∀ (l1 l2 : List Char) {r1 r2 : List Char}, '_' ∉ l1 → '_' ∉ l2 →
      l1 ++ '_' :: r1 = l2 ++ '_' :: r2 → l1 = l2 ∧ r1 = r2 := by
  intro l1
  induction l1 with
  | nil =>
    intro l2 r1 r2 _ h2 h
    cases l2 with
    | nil =>
      simp only [List.nil_append, List.cons.injEq] at h
      exact ⟨rfl, h.2⟩
    | cons c l2 =>
      simp only [List.nil_append, List.cons_append, List.cons.injEq] at h
      have hc : c = '_' := h.1.symm
      subst hc
      exact absurd (List.mem_cons_self _ _) h2
  | cons c l1 ih =>
    intro l2 r1 r2 h1 h2 h
    cases l2 with
    | nil =>
      simp only [List.cons_append, List.nil_append, List.cons.injEq] at h
      have hc : c = '_' := h.1
      subst hc
      exact absurd (List.mem_cons_self _ _) h1
    | cons d l2 =>
      simp only [List.cons_append, List.cons.injEq] at h
      have h1' : '_' ∉ l1 := fun hx => h1 (List.mem_cons_of_mem _ hx)
      have h2' : '_' ∉ l2 := fun hx => h2 (List.mem_cons_of_mem _ hx)
      have hrest := ih l2 h1' h2' h.2
      exact ⟨by rw [h.1, hrest.1], hrest.2⟩

theorem scanFracB_false_parseFracV {cs : List Char} (h : scanFracB cs = false) :
    parseFracV cs = none := by
  induction cs with
  | nil => simp [scanFracB] at h
  | cons c cs ih =>
    by_cases hd : c.isDigit = true
    · have h' : scanFracB cs = false := by simpa [scanFracB, hd] using h
      simp [parseFracV, hd, ih h']
    · have hd' : c.isDigit = false := by simpa using hd
      simp [parseFracV, hd']

theorem scanNum_false_parseNum {cs : List Char} : ∀ {seen : Bool} (acc : Nat),
    scanNum cs seen = false → parseNum cs acc seen = none := by
  induction cs with
  | nil =>
    intro seen acc h
    simp [scanNum] at h
    simp [parseNum, h]
  | cons c cs ih =>
    intro seen acc h
    by_cases hdot : c = '.'
    · subst hdot
      have h' : ((seen || !cs.isEmpty) && scanFracB cs) = false := by
        simpa [scanNum] using h
      cases hc : (seen || !cs.isEmpty) with
      | false => simp [parseNum, hc]
      | true =>
        have hf : scanFracB cs = false := by simpa [hc] using h'
        simp [parseNum, hc, scanFracB_false_parseFracV hf]
    · by_cases hd : c.isDigit = true
      · have h' : scanNum cs true = false := by
          simpa [scanNum, hdot, hd] using h
        have h2 := ih (acc * 10 + natOfDigitChar c) h'
        simp [parseNum, hdot, hd, h2]
      · have hd' : c.isDigit = false := by simpa using hd
        simp [parseNum, hdot, hd']

theorem scanSigned_false_parseSigned {cs : List Char} (h : scanSigned cs = false) :
    parseSigned cs = none := by
  cases cs with
  | nil => rfl
  | cons c rest =>
    by_cases hm : c = '-'
    · have h' : scanNum rest false = false := by simpa [scanSigned, hm] using h
      simp [parseSigned, hm, scanNum_false_parseNum 0 h']
    · by_cases hp : c = '+'
      · have h' : scanNum rest false = false := by simpa [scanSigned, hm, hp] using h
        simp [parseSigned, hm, hp, scanNum_false_parseNum 0 h']
      · have h' : scanNum (c :: rest) false = false := by
          simpa [scanSigned, hm, hp] using h
        simp [parseSigned, hm, hp, scanNum_false_parseNum 0 h']

theorem isNumericLit_false_parseDecimal {s : String} (h : isNumericLit s = false) :
    parseDecimal s = none :=
  scanSigned_false_parseSigned h

theorem sortRows_sorted (l : List Row) : List.Sorted rowLe (sortRows l) :=
  List.sorted_insertionSort rowLe l

theorem mem_sortRows {a : Row} {l : List Row} : a ∈ sortRows l ↔ a ∈ l :=
  (List.perm_insertionSort rowLe l).mem_iff

theorem length_sortRows (l : List Row) : (sortRows l).length = l.length :=
  (List.perm_insertionSort rowLe l).length_eq

theorem sortValuesPct_of_ne_nil {rows : List Row} (h : rows ≠ []) :
    sortValuesPct rows = .ok (sortRows rows) := by
  unfold sortValuesPct frameColumns
  simp [h]

theorem sortValuesPct_ok {rows out : List Row} (h : sortValuesPct rows = .ok out) :
    out = sortRows rows := by
  unfold sortValuesPct at h
  split at h
  · exact (Except.ok.injEq _ _).mp h |>.symm
  · cases h

theorem mem_buildRows_iff {symbolsCache : List SymbolInfo} {N : Nat}
    {tickers : List Ticker} {listing : String → HttpKlines} {row : Row} :
    row ∈ buildRows symbolsCache N tickers listing ↔
      ∃ sym ∈ candidateSymbols symbolsCache N, ∃ t : Ticker,
        tickMapLookup tickers sym = some t ∧ t.priceChangePercent < 0 ∧
        row = { symbol := sym, pct24h := t.priceChangePercent, last_price := t.lastPrice,
                volumeUSDT := t.quoteVolume, listed_date := listingDate (listing sym) } := by
  unfold buildRows
  rw [List.mem_filterMap]
  constructor
  · rintro ⟨sym, hmem, hf⟩
    refine ⟨sym, hmem, ?_⟩
    rcases hlk : tickMapLookup tickers sym with _ | t
    · rw [hlk] at hf
      simp at hf
    · rw [hlk] at hf
      by_cases hp : (0 : Rat) ≤ t.priceChangePercent
      · simp [hp] at hf
      · simp only [if_neg hp] at hf
        exact ⟨t, rfl, not_le.mp hp, (Option.some.injEq _ _).mp hf |>.symm⟩
  · rintro ⟨sym, hmem, t, hlk, hneg, hrow⟩
    refine ⟨sym, hmem, ?_⟩
    rw [hlk]
    simp only [if_neg (not_le.mpr hneg)]
    rw [hrow]

theorem lookup_after_call (net : String → String → Nat → List RawKline)
    (cache : CandleCache) (s i : String) (l : Nat) :
    cacheLookup (get_klines_cached net cache s i l).cache (klineKey s i) =
      some (get_klines_cached net cache s i l).df := by
  unfold get_klines_cached
  rcases hm : cacheLookup cache (klineKey s i) with _ | df
  · simp [cacheLookup, hm]
  · simp [hm]

theorem cacheLookup_preserved (net : String → String → Nat → List RawKline)
    (cache : CandleCache) (s i : String) (l : Nat) {key : String} {df : List Candle}
    (h : cacheLookup cache key = some df) :
    cacheLookup (get_klines_cached net cache s i l).cache key = some df := by
  simp only [get_klines_cached]
  rcases hm : cacheLookup cache (klineKey s i) with _ | d
  · have hne : klineKey s i ≠ key := by
      intro he
      rw [he, h] at hm
      cases hm
    simp [cacheLookup, hm, hne, h]
  · exact h

theorem cacheLookup_runCalls (net : String → String → Nat → List RawKline)
    {key : String} {df : List Candle} :
    ∀ (calls : List KlinesCall) (cache : CandleCache),
      cacheLookup cache key = some df →
      cacheLookup (runCalls net cache calls) key = some df := by
  intro calls
  induction calls with
  | nil => intro cache h; exact h
  | cons c cs ih =>
    intro cache h
    exact ih _ (cacheLookup_preserved net cache c.symbol c.interval c.limit h)

theorem get_klines_cached_hit (net : String → String → Nat → List RawKline)
    {cache : CandleCache} {s i : String} {df : List Candle} (l : Nat)
    (h : cacheLookup cache (klineKey s i) = some df) :
    get_klines_cached net cache s i l = ⟨df, cache, false⟩ := by
  simp only [get_klines_cached, h]

theorem runRefresh_success {meta : List SymbolInfo} {tickers : List Ticker} {N : Nat}
    {listing : String → HttpKlines} {out : List Row}
    (h : runRefresh (.success meta) (.success tickers) N listing = .ok out) :
    out = sortRows (buildRows meta N tickers listing) :=
  sortValuesPct_ok h

theorem listingDate_of_failure {r : HttpKlines}
    (h : r = .exn ∨ ∃ st body, r = .resp st body ∧ (st ≠ 200 ∨ body = [])) :
    listingDate r = "N/A" := by
  rcases h with h | ⟨st, body, h, hbad⟩
  · rw [h]
    rfl
  · rw [h]
    rcases hbad with hst | hb
    · simp [listingDate, hst]
    · subst hb
      by_cases hst : st = 200 <;> simp [listingDate, hst]

/-! ### Claims -/

/-- C1 (filter correctness): every row of a Filtered Result produced by a
refresh cycle has strictly negative 24h percent change; no row with a
non-negative change ever appears. -/
theorem filter_correctness (metaFetch : FetchOutcome (List SymbolInfo))
    (tickerFetch : FetchOutcome (List Ticker)) (N : Nat) (listing : String → HttpKlines)
    (out : List Row) (row : Row)
    (hok : runRefresh metaFetch tickerFetch N listing = .ok out) (hrow : row ∈ out) :
    row.pct24h < 0 := by
  cases metaFetch with
  | netError => simp [runRefresh] at hok
  | success meta =>
    cases tickerFetch with
    | netError => simp [runRefresh] at hok
    | success tickers =>
      rw [runRefresh_success hok] at hrow
      rcases mem_buildRows_iff.mp (mem_sortRows.mp hrow) with ⟨sym, _, t, _, hneg, hrow'⟩
      rw [hrow']
      exact hneg

/-- Witness for C1 at Scenario A: AAA -5 %, BBB +2 %, CCC -1 %. -/
theorem filter_correctness_witness :
    runRefresh (.success metaA) (.success tickersA) 3 listingExn =
        .ok [⟨"AAAUSDT", -5, 1, 1000, "N/A"⟩, ⟨"CCCUSDT", -1, 3, 3000, "N/A"⟩] ∧
      (⟨"AAAUSDT", -5, 1, 1000, "N/A"⟩ : Row) ∈
        ([⟨"AAAUSDT", -5, 1, 1000, "N/A"⟩, ⟨"CCCUSDT", -1, 3, 3000, "N/A"⟩] : List Row) ∧
      (⟨"AAAUSDT", -5, 1, 1000, "N/A"⟩ : Row).pct24h < 0 :=
  ⟨by rfl, by decide,
   filter_correctness (.success metaA) (.success tickersA) 3 listingExn
     [⟨"AAAUSDT", -5, 1, 1000, "N/A"⟩, ⟨"CCCUSDT", -1, 3, 3000, "N/A"⟩]
     ⟨"AAAUSDT", -5, 1, 1000, "N/A"⟩ (by rfl) (by decide)⟩

/-- C2 (sort order): adjacent rows of every Filtered Result are ascending
by 24h percent change, most negative first. -/
theorem sort_order (metaFetch : FetchOutcome (List SymbolInfo))
    (tickerFetch : FetchOutcome (List Ticker)) (N : Nat) (listing : String → HttpKlines)
    (out : List Row) (hok : runRefresh metaFetch tickerFetch N listing = .ok out) :
    List.Chain' (fun a b => a.pct24h ≤ b.pct24h) out := by
  cases metaFetch with
  | netError => simp [runRefresh] at hok
  | success meta =>
    cases tickerFetch with
    | netError => simp [runRefresh] at hok
    | success tickers =>
      rw [runRefresh_success hok]
      exact (sortRows_sorted _).chain'

/-- Witness for C2 on a snapshot the loop meets out of order: the result
comes back sorted, CCC -5 % before AAA -1 %. -/
theorem sort_order_witness :
    List.Chain' (fun a b => a.pct24h ≤ b.pct24h)
      ([⟨"CCCUSDT", -5, 3, 3000, "N/A"⟩, ⟨"AAAUSDT", -1, 1, 1000, "N/A"⟩] : List Row) :=
  sort_order (.success metaA) (.success tickersB) 3 listingExn
    [⟨"CCCUSDT", -5, 3, 3000, "N/A"⟩, ⟨"AAAUSDT", -1, 1, 1000, "N/A"⟩] (by rfl)

/-- C3 (count bound and candidate selection): a Filtered Result has at
most `N` rows, and the candidate symbol list inspected before the ticker
join is exactly the first `N` metadata entries in exchange-returned
order: it has length `min N |metadata|` and its `i`-th entry is the
symbol of the `i`-th metadata entry. -/
theorem count_bound_and_candidates (meta : List SymbolInfo) (tickers : List Ticker)
    (N : Nat) (listing : String → HttpKlines) (out : List Row)
    (hok : runRefresh (.success meta) (.success tickers) N listing = .ok out) :
    out.length ≤ N ∧ (candidateSymbols meta N).length = min N meta.length ∧
      ∀ i, i < N → (candidateSymbols meta N)[i]? = (meta[i]?).map (fun s => s.symbol) := by
  refine ⟨?_, ?_, ?_⟩
  · rw [runRefresh_success hok, length_sortRows]
    calc (buildRows meta N tickers listing).length
        ≤ (candidateSymbols meta N).length := List.length_filterMap_le _ _
      _ = min N meta.length := by simp [candidateSymbols]
      _ ≤ N := min_le_left _ _
  · simp [candidateSymbols]
  · intro i hi
    simp [candidateSymbols, List.getElem?_take, hi]

/-- Witness for C3 with `N = 2` over three metadata entries: only the
first two symbols are candidates and the result has at most two rows. -/
theorem count_bound_and_candidates_witness :
    ([⟨"AAAUSDT", -5, 1, 1000, "N/A"⟩] : List Row).length ≤ 2 ∧
      (candidateSymbols metaA 2).length = min 2 metaA.length ∧
      ∀ i, i < 2 → (candidateSymbols metaA 2)[i]? = (metaA[i]?).map (fun s => s.symbol) :=
  count_bound_and_candidates metaA tickersA 2 listingExn
    [⟨"AAAUSDT", -5, 1, 1000, "N/A"⟩] (by rfl)

/-- C4 (candle cache idempotence quirk): after a first candle fetch for
`(s, i)` with some limit, every later fetch for `(s, i)` in the same
session, with any limit and after any other fetches in between, returns
exactly the series cached by the first call and issues no network
request: the cache key omits the limit. -/
theorem candle_cache_idempotence (net : String → String → Nat → List RawKline)
    (cache0 : CandleCache) (s i : String) (l1 l2 : Nat) (calls : List KlinesCall) :
    get_klines_cached net (runCalls net (get_klines_cached net cache0 s i l1).cache calls) s i l2 =
      ⟨(get_klines_cached net cache0 s i l1).df,
       runCalls net (get_klines_cached net cache0 s i l1).cache calls, false⟩ :=
  get_klines_cached_hit net l2
    (cacheLookup_runCalls net calls _ (lookup_after_call net cache0 s i l1))

/-- C5 (partial-failure isolation): when the listing-date lookup fails for
qualifying symbol `X` (exception, non-200 status or empty body) but
succeeds for qualifying symbol `Y`, the refresh still succeeds and its
result contains a row for each, `X` with the sentinel and `Y` with the
day/month/year formatted date. -/
theorem partial_failure_isolation (meta : List SymbolInfo) (tickers : List Ticker)
    (N : Nat) (listing : String → HttpKlines) (X Y : String) (tX tY : Ticker)
    (ts : Nat) (restRow : List Nat) (restBody : List (List Nat))
    (hX : X ∈ candidateSymbols meta N) (hY : Y ∈ candidateSymbols meta N)
    (hmX : tickMapLookup tickers X = some tX) (hpX : tX.priceChangePercent < 0)
    (hmY : tickMapLookup tickers Y = some tY) (hpY : tY.priceChangePercent < 0)
    (hfX : listing X = .exn ∨ ∃ st body, listing X = .resp st body ∧ (st ≠ 200 ∨ body = []))
    (hfY : listing Y = .resp 200 ((ts :: restRow) :: restBody)) :
    ∃ out, runRefresh (.success meta) (.success tickers) N listing = .ok out ∧
      (∃ r ∈ out, r.symbol = X ∧ r.listed_date = "N/A") ∧
      (∃ r ∈ out, r.symbol = Y ∧ r.listed_date = fmtDMY ts) := by
  have hLX : listingDate (listing X) = "N/A" := listingDate_of_failure hfX
  have hLY : listingDate (listing Y) = fmtDMY ts := by
    rw [hfY]
    simp [listingDate]
  have hmemX : ({ symbol := X, pct24h := tX.priceChangePercent, last_price := tX.lastPrice,
                  volumeUSDT := tX.quoteVolume, listed_date := "N/A" } : Row) ∈
      buildRows meta N tickers listing :=
    mem_buildRows_iff.mpr ⟨X, hX, tX, hmX, hpX, by rw [hLX]⟩
  have hmemY : ({ symbol := Y, pct24h := tY.priceChangePercent, last_price := tY.lastPrice,
                  volumeUSDT := tY.quoteVolume, listed_date := fmtDMY ts } : Row) ∈
      buildRows meta N tickers listing :=
    mem_buildRows_iff.mpr ⟨Y, hY, tY, hmY, hpY, by rw [hLY]⟩
  have hne : buildRows meta N tickers listing ≠ [] := by
    intro h0
    rw [h0] at hmemX
    cases hmemX
  refine ⟨sortRows (buildRows meta N tickers listing), ?_, ?_, ?_⟩
  · show sortValuesPct (buildRows meta N tickers listing) =
      .ok (sortRows (buildRows meta N tickers listing))
    exact sortValuesPct_of_ne_nil hne
  · exact ⟨_, mem_sortRows.mpr hmemX, rfl, rfl⟩
  · exact ⟨_, mem_sortRows.mpr hmemY, rfl, rfl⟩

/-- Witness for C5 (Scenario D shape): AAA's lookup raises, CCC's returns
the epoch candle; both rows appear, AAA with "N/A", CCC dated 01/01/1970. -/
theorem partial_failure_isolation_witness :
    ∃ out, runRefresh (.success metaA) (.success tickersA) 3 listingAC = .ok out ∧
      (∃ r ∈ out, r.symbol = "AAAUSDT" ∧ r.listed_date = "N/A") ∧
      (∃ r ∈ out, r.symbol = "CCCUSDT" ∧ r.listed_date = fmtDMY 0) :=
  partial_failure_isolation metaA tickersA 3 listingAC "AAAUSDT" "CCCUSDT"
    ⟨"AAAUSDT", -5, 1, 1000⟩ ⟨"CCCUSDT", -1, 3, 3000⟩ 0 [] []
    (by decide) (by decide) (by decide) (by decide) (by decide) (by decide)
    (Or.inl rfl) rfl

/-- C6 (fail-fast with atomic result replacement): if the metadata or
ticker fetch fails, the refresh cycle aborts with an uncaught error and
the stored Filtered Result is unchanged; the stored result is replaced,
wholesale, exactly when a cycle ends successfully. -/
theorem fail_fast_atomic_replacement (prev : Option (List Row))
    (metaFetch : FetchOutcome (List SymbolInfo)) (tickerFetch : FetchOutcome (List Ticker))
    (N : Nat) (listing : String → HttpKlines) :
    ((metaFetch = .netError ∨ tickerFetch = .netError) →
      (∃ e, runRefresh metaFetch tickerFetch N listing = .error e) ∧
        sessionAfterRefresh prev metaFetch tickerFetch N listing = prev) ∧
    (∀ out, runRefresh metaFetch tickerFetch N listing = .ok out →
      sessionAfterRefresh prev metaFetch tickerFetch N listing = some out) := by
  constructor
  · intro h
    have he : ∃ e, runRefresh metaFetch tickerFetch N listing = .error e := by
      rcases h with h | h
      · subst h
        exact ⟨.metaNetwork, rfl⟩
      · subst h
        cases metaFetch with
        | netError => exact ⟨.metaNetwork, rfl⟩
        | success m => exact ⟨.tickerNetwork, rfl⟩
    rcases he with ⟨e, he⟩
    exact ⟨⟨e, he⟩, by simp [sessionAfterRefresh, he]⟩
  · intro out h
    simp [sessionAfterRefresh, h]

/-- Witness for C6: a failed metadata fetch leaves the stored result in
place; the successful Scenario A cycle replaces it wholesale. -/
theorem fail_fast_atomic_replacement_witness :
    sessionAfterRefresh (some prevRows) .netError (.success tickersA) 3 listingExn =
        some prevRows ∧
      sessionAfterRefresh (some prevRows) (.success metaA) (.success tickersA) 3 listingExn =
        some [⟨"AAAUSDT", -5, 1, 1000, "N/A"⟩, ⟨"CCCUSDT", -1, 3, 3000, "N/A"⟩] :=
  ⟨((fail_fast_atomic_replacement (some prevRows) .netError (.success tickersA) 3
      listingExn).1 (Or.inl rfl)).2,
   (fail_fast_atomic_replacement (some prevRows) (.success metaA) (.success tickersA) 3
      listingExn).2 [⟨"AAAUSDT", -5, 1, 1000, "N/A"⟩, ⟨"CCCUSDT", -1, 3, 3000, "N/A"⟩] (by rfl)⟩

/-- C7 counterexample: after a metadata fetch at time 0, the explicit
refresh path (the refresh button re-runs `fetch_exchange_symbols`, lines
106-108) at time 10 — inside the 300-unit window — is answered from the
TTL cache: no network round-trip happens and the cached value is
returned, contradicting the part of the claim that says an explicit
refresh causes the metadata to be re-fetched from the network. -/
theorem metadata_explicit_refresh_counterexample :
    (fetch_exchange_symbols netMeta 10
        (fetch_exchange_symbols netMeta 0 none).ttlState).networkFetch = false ∧
      (fetch_exchange_symbols netMeta 10
          (fetch_exchange_symbols netMeta 0 none).ttlState).value =
        (fetch_exchange_symbols netMeta 0 none).value := by
  decide

/-- C7 amended: metadata is cached for 300 time units; any call within the
window — including one triggered by the explicit refresh button — returns
the cached value with no network round-trip; a call at or after expiry,
or with an empty cache slot, re-fetches wholesale from the network. -/
theorem metadata_ttl_cache (net : Nat → List SymbolInfo) (v : List SymbolInfo) (t0 now : Nat) :
    (now < t0 + 300 →
      fetch_exchange_symbols net now (some (t0, v)) = ⟨v, some (t0, v), false⟩) ∧
    (t0 + 300 ≤ now →
      fetch_exchange_symbols net now (some (t0, v)) =
        ⟨filterSymbols (net now), some (now, filterSymbols (net now)), true⟩) ∧
    fetch_exchange_symbols net now none =
      ⟨filterSymbols (net now), some (now, filterSymbols (net now)), true⟩ :=
  ⟨fun h => by simp [fetch_exchange_symbols, h],
   fun h => by simp [fetch_exchange_symbols, not_lt.mpr h],
   rfl⟩

/-- Witness for the amended C7 at time 10 (within the window) and at time
400 (expired). -/
theorem metadata_ttl_cache_witness :
    fetch_exchange_symbols netMeta 10 (some (0, filterSymbols (netMeta 0))) =
        ⟨filterSymbols (netMeta 0), some (0, filterSymbols (netMeta 0)), false⟩ ∧
      fetch_exchange_symbols netMeta 400 (some (0, filterSymbols (netMeta 0))) =
        ⟨filterSymbols (netMeta 400), some (400, filterSymbols (netMeta 400)), true⟩ :=
  ⟨(metadata_ttl_cache netMeta (filterSymbols (netMeta 0)) 0 10).1 (by decide),
   (metadata_ttl_cache netMeta (filterSymbols (netMeta 0)) 0 400).2.1 (by decide)⟩

/-- C8: each of the five numeric candle columns is coerced field-wise: a
wire value that is not a valid decimal literal becomes the explicit
missing marker `none` — never the number zero — and row parsing is a
total function, so no exception is raised. -/
theorem malformed_numeric_coerced (r : RawKline) :
    (isNumericLit r.openP = false →
      (parseKlineRow r).openP = none ∧ (parseKlineRow r).openP ≠ some 0) ∧
    (isNumericLit r.high = false →
      (parseKlineRow r).high = none ∧ (parseKlineRow r).high ≠ some 0) ∧
    (isNumericLit r.low = false →
      (parseKlineRow r).low = none ∧ (parseKlineRow r).low ≠ some 0) ∧
    (isNumericLit r.closeP = false →
      (parseKlineRow r).closeP = none ∧ (parseKlineRow r).closeP ≠ some 0) ∧
    (isNumericLit r.volume = false →
      (parseKlineRow r).volume = none ∧ (parseKlineRow r).volume ≠ some 0) := by
  have mk : ∀ s : String, isNumericLit s = false →
      parseDecimal s = none ∧ parseDecimal s ≠ some 0 := fun s h =>
    ⟨isNumericLit_false_parseDecimal h, by simp [isNumericLit_false_parseDecimal h]⟩
  exact ⟨mk r.openP, mk r.high, mk r.low, mk r.closeP, mk r.volume⟩

/-- Witness for C8: the malformed open-price field "abc" coerces to the
missing marker and not to zero. -/
theorem malformed_numeric_coerced_witness :
    isNumericLit "abc" = false ∧ (parseKlineRow rawBad).openP = none ∧
      (parseKlineRow rawBad).openP ≠ some 0 :=
  ⟨by decide, ((malformed_numeric_coerced rawBad).1 (by decide)).1,
   ((malformed_numeric_coerced rawBad).1 (by decide)).2⟩

/-- C9 (implicit edge case): when no candidate symbol survives the ticker
join and the negative-change filter, the refresh does not produce an
empty Filtered Result: the empty record list yields a column-less frame
and `sort_values` on the missing `% 24h` column raises, aborting the
cycle. -/
theorem empty_result_sort_aborts (meta : List SymbolInfo) (tickers : List Ticker)
    (N : Nat) (listing : String → HttpKlines)
    (h : buildRows meta N tickers listing = []) :
    runRefresh (.success meta) (.success tickers) N listing = .error .sortKeyError := by
  show sortValuesPct (buildRows meta N tickers listing) = .error .sortKeyError
  rw [h]
  rfl

/-- Witness for C9: one candidate whose 24h change is +2 % (so the rows
list is empty) makes the refresh abort with the sort key error. -/
theorem empty_result_sort_aborts_witness :
    runRefresh (.success metaD) (.success tickersD) 1 listingExn = .error .sortKeyError :=
  empty_result_sort_aborts metaD tickersD 1 listingExn (by decide)

/-- C10 counterexample: the cache key `symbol ++ "_" ++ interval` is not
injective over all pairs: the distinct argument pairs ("A_1", "h") and
("A", "1_h") share the key "A_1_h", so after a first fetch for
("A_1", "h") the fetcher answers ("A", "1_h") from that entry — no
network request, and a series different from what the network would
return for ("A", "1_h"). -/
theorem candle_key_collision :
    klineKey "A_1" "h" = klineKey "A" "1_h" ∧
      (get_klines_cached netKl
          (get_klines_cached netKl [] "A_1" "h" 500).cache "A" "1_h" 500).df =
        (get_klines_cached netKl [] "A_1" "h" 500).df ∧
      (get_klines_cached netKl
          (get_klines_cached netKl [] "A_1" "h" 500).cache "A" "1_h" 500).networkFetch =
        false ∧
      (get_klines_cached netKl [] "A_1" "h" 500).df ≠ parseKlines (netKl "A" "1_h" 500) := by
  decide

/-- C10 amended: over symbols containing no underscore — which covers
every symbol the exchange actually returns — the key map is injective,
so distinct (symbol, interval) pairs own distinct cache entries. -/
theorem candle_key_injective_no_underscore (s1 i1 s2 i2 : String)
    (h1 : '_' ∉ s1.data) (h2 : '_' ∉ s2.data)
    (hk : klineKey s1 i1 = klineKey s2 i2) : s1 = s2 ∧ i1 = i2 := by
  have hd := congrArg String.data hk
  rw [klineKey_data, klineKey_data] at hd
  have h := append_underscore_inj s1.data s2.data h1 h2 hd
  exact ⟨string_data_inj h.1, string_data_inj h.2⟩

/-- Witness for the amended C10 at an underscore-free symbol. -/
theorem candle_key_injective_no_underscore_witness :
    ("BTCUSDT" : String) = "BTCUSDT" ∧ ("1h" : String) = "1h" :=
  candle_key_injective_no_underscore "BTCUSDT" "1h" "BTCUSDT" "1h"
    (by decide) (by decide) rfl

end BinanceFilter
